import Mathlib

/-
Shallow embedding of the i-PI socket client in `driver.py`.

The Python module speaks the i-PI binary wire protocol on a TCP socket:
12-byte ASCII command headers, 4-byte little integers and 8-byte floats.
We model the byte stream as a list of typed wire items, each carrying its
nominal byte width (header = its string length, int = 4, float = 8, raw
payload = its length).  Real arithmetic on the wire values is modelled over
ℚ, so the unit-conversion formulas of the source are exact; a read that the
socket layer would satisfy is modelled as popping the matching item.  A
`tmo` event models `socket.timeout` firing during a receive; exceptions
(`ExitSignal`, `TimeOutSignal`, a Python runtime error such as `TypeError`)
are modelled by the `exn` field of the step outcome, which also carries the
output written so far, so partially written replies stay observable.
-/

namespace IPI

/-! ### Constants from driver.py -/

/-- Bohr radius in meters, `BOHR = 5.291772108e-11` in driver.py. -/
def BOHR : ℚ := 5.291772108e-11

/-- Hartree in Joule, `EH = 4.35974417e-18` in driver.py. -/
def EH : ℚ := 4.35974417e-18

/-- Avogadro constant, `MOLE = 6.02214129e23` in driver.py. -/
def MOLE : ℚ := 6.02214129e23

/-- `KJ = 1000.0` in driver.py. -/
def KJ : ℚ := 1000.0

/-- 12-byte STATUS header constant of driver.py. -/
def STATUS : String := "STATUS      "

/-- 12-byte NEEDINIT reply constant of driver.py. -/
def NEEDINIT : String := "NEEDINIT    "

/-- 12-byte READY reply constant of driver.py. -/
def READY : String := "READY       "

/-- 12-byte HAVEDATA reply constant of driver.py. -/
def HAVEDATA : String := "HAVEDATA    "

/-- 12-byte FORCEREADY reply constant of driver.py. -/
def FORCEREADY : String := "FORCEREADY  "

/-! ### Wire model -/

/-- One 3-vector of rationals: a row of a numpy `(N, 3)` array. -/
structure V3 where
  x : ℚ
  y : ℚ
  z : ℚ
  deriving DecidableEq

/-- A typed item on the wire.  `hdr` is a 12-byte ASCII command or reply,
`int` a 4-byte integer, `flt` an 8-byte float, `raw` an opaque byte string. -/
inductive WireItem where
  | hdr (s : String)
  | int (n : ℤ)
  | flt (q : ℚ)
  | raw (s : String)
  deriving DecidableEq

/-- Nominal width in bytes of a wire item (`INT = 4`, `FLOAT = 8`). -/
def WireItem.byteSize : WireItem → ℕ
  | .hdr s => s.length
  | .int _ => 4
  | .flt _ => 8
  | .raw s => s.length

/-- An inbound socket event: either the next wire item arrives, or the
receive times out (`socket.timeout`, only observable while a timeout is
set on the socket). -/
inductive InEvent where
  | ev (w : WireItem)
  | tmo
  deriving DecidableEq

/-! ### Driver state, from BaseDriver.__init__ -/

/-- The mutable fields of `BaseDriver` (after a successful connect), plus
a flag recording whether `socket.close()` has run. -/
structure DriverState where
  ifInit : Bool
  ifForce : Bool
  cell : Option (List ℚ)
  inverse : Option (List ℚ)
  crd : Option (List V3)
  energy : Option ℚ
  force : Option (List V3)
  extra : String
  nbead : ℤ
  natom : ℤ
  socketClosed : Bool
  deriving DecidableEq

/-- The field values set at the end of `BaseDriver.__init__`. -/
def initState : DriverState :=
  { ifInit := false, ifForce := false, cell := none, inverse := none,
    crd := none, energy := none, force := none, extra := "",
    nbead := -1, natom := -1, socketClosed := false }

/-- Exceptions the Python code can raise while handling messages:
`ExitSignal`, `TimeOutSignal`, a Python runtime error such as the
`TypeError` from `None / EH` (`pyError`), and a model-internal marker for
an inbound stream that does not carry the expected shape of data
(`streamError`). -/
inductive DriverError where
  | exitSignal
  | timeOutSignal
  | pyError
  | streamError
  deriving DecidableEq

/-- Result of running a handler: the exception raised (if any), the state
reached, the unread remainder of the inbound stream, and the wire items
written to the socket, in order.  On an exception `out` holds the partial
reply written before the raise. -/
structure Outcome where
  exn : Option DriverError
  state : DriverState
  rest : List InEvent
  out : List WireItem
  deriving DecidableEq

/-! ### Reading from the stream (socket.recv of fixed widths) -/

/-- Read one 4-byte integer (`np.frombuffer(self.socket.recv(INT * 1),
dtype=np.int32)[0]`). -/
def readInt : List InEvent → Option (ℤ × List InEvent)
  | .ev (.int n) :: rest => some (n, rest)
  | _ => none

/-- Read `k` consecutive 8-byte floats (`np.frombuffer(self.socket.recv(
FLOAT * k), dtype=np.float64)`). -/
def readFlts : ℕ → List InEvent → Option (List ℚ × List InEvent)
  | 0, evs => some ([], evs)
  | k + 1, .ev (.flt q) :: rest =>
      match readFlts k rest with
      | some (qs, r) => some (q :: qs, r)
      | none => none
  | _ + 1, _ => none

/-- Read a raw byte payload of the declared length (`self.socket.recv(offset)`). -/
def readRaw (len : ℕ) : List InEvent → Option (String × List InEvent)
  | .ev (.raw s) :: rest => if s.length = len then some (s, rest) else none
  | _ => none

/-! ### Array helpers (numpy reshape / ravel / elementwise ops) -/

/-- `reshape((natom, 3))`: group a flat float list into rows of three. -/
def toTriples : List ℚ → List V3
  | a :: b :: c :: rest => ⟨a, b, c⟩ :: toTriples rest
  | _ => []

/-- `ravel()`: flatten an `(N, 3)` array row by row. -/
def ravel : List V3 → List ℚ
  | [] => []
  | v :: rest => v.x :: v.y :: v.z :: ravel rest

/-- Multiply an `(N, 3)` array by a scalar, elementwise. -/
def scaleRows (a : ℚ) (l : List V3) : List V3 :=
  l.map (fun v => ⟨v.x * a, v.y * a, v.z * a⟩)

/-- Unary minus on an `(N, 3)` array (`- force` in posdata). -/
def negRows (l : List V3) : List V3 :=
  l.map (fun v => ⟨-v.x, -v.y, -v.z⟩)

/-- Elementwise product of two `(N, 3)` arrays (`self.force * self.crd`). -/
def mulRows (l r : List V3) : List V3 :=
  List.zipWith (fun a b => (⟨a.x * b.x, a.y * b.y, a.z * b.z⟩ : V3)) l r

/-- An evaluator: `grad(crd)` returns an energy and a gradient array, or
`none` when it yields unusable values (as `BaseDriver.grad`, which
returns `(None, None)` and makes the later `- force` raise). -/
def Grad : Type := List V3 → Option (ℚ × List V3)

/-- `BaseDriver.grad`: returns `(None, None)`. -/
def baseGrad : Grad := fun _ => none

/-! ### Handlers, one per command -/

/-- The reply string chosen by `BaseDriver.status`. -/
def statusReply (s : DriverState) : String :=
  if s.ifInit && !s.ifForce then READY
  else if s.ifForce then HAVEDATA
  else NEEDINIT

/-- `BaseDriver.status`: send the chosen reply, touch nothing else. -/
def statusStep (s : DriverState) (evs : List InEvent) : Outcome :=
  { exn := none, state := s, rest := evs, out := [.hdr (statusReply s)] }

/-- `BaseDriver.init`: read the bead count, a declared payload length and
the payload; `update` is a no-op (`pass`); set `ifInit = True`. -/
def initStep (s : DriverState) (evs : List InEvent) : Outcome :=
  match readInt evs with
  | none => { exn := some .streamError, state := s, rest := evs, out := [] }
  | some (nb, e1) =>
    match readInt e1 with
    | none => { exn := some .streamError, state := s, rest := e1, out := [] }
    | some (off, e2) =>
      match readRaw off.toNat e2 with
      | none => { exn := some .streamError, state := s, rest := e2, out := [] }
      | some (_, e3) =>
        { exn := none, state := { s with nbead := nb, ifInit := true },
          rest := e3, out := [] }

/-- `BaseDriver.posdata`: read 9 cell floats (× BOHR), 9 inverse-cell
floats (÷ BOHR), the atom count, and `3 * natom` coordinate floats
(reshaped to `(natom, 3)` and × BOHR); call `grad`; store the energy and
the negated force; set `ifForce = True`.  If `grad` yields unusable
values the energy is stored and `- force` raises before `force` or
`ifForce` is written. -/
def posdataStep (g : Grad) (s : DriverState) (evs : List InEvent) : Outcome :=
  match readFlts 9 evs with
  | none => { exn := some .streamError, state := s, rest := evs, out := [] }
  | some (cellW, e1) =>
    match readFlts 9 e1 with
    | none => { exn := some .streamError, state := s, rest := e1, out := [] }
    | some (invW, e2) =>
      match readInt e2 with
      | none => { exn := some .streamError, state := s, rest := e2, out := [] }
      | some (n, e3) =>
        match readFlts (3 * n.toNat) e3 with
        | none => { exn := some .streamError, state := s, rest := e3, out := [] }
        | some (crdW, e4) =>
          let crd1 := scaleRows BOHR (toTriples crdW)
          let s1 := { s with cell := some (cellW.map (· * BOHR)),
                             inverse := some (invW.map (· / BOHR)),
                             natom := n, crd := some crd1 }
          match g crd1 with
          | none =>
            { exn := some .pyError, state := { s1 with energy := none },
              rest := e4, out := [] }
          | some (e, f) =>
            { exn := none,
              state := { s1 with energy := some e, force := some (negRows f),
                                 ifForce := true },
              rest := e4, out := [] }

/-- The extra string actually sent by getforce:
`extra = self.extra if len(self.extra) > 0 else " "`. -/
def extraSent (s : DriverState) : String :=
  if s.extra.length > 0 then s.extra else " "

/-- `BaseDriver.getforce`: send `FORCEREADY`, the energy over EH, the atom
count, every force component over `EH / BOHR`, every component of the
elementwise product `force * crd` over EH, the extra-string length and
the extra string; clear `ifForce`.  Each `None` dereference raises after
the wire items already sent. -/
def getforceStep (s : DriverState) (evs : List InEvent) : Outcome :=
  match s.energy with
  | none => { exn := some .pyError, state := s, rest := evs, out := [.hdr FORCEREADY] }
  | some e =>
    match s.force with
    | none => { exn := some .pyError, state := s, rest := evs,
                out := [.hdr FORCEREADY, .flt (e / EH), .int s.natom] }
    | some f =>
      match s.crd with
      | none => { exn := some .pyError, state := s, rest := evs,
                  out := [.hdr FORCEREADY, .flt (e / EH), .int s.natom]
                    ++ (ravel f).map (fun q => .flt (q / (EH / BOHR))) }
      | some c =>
        { exn := none, state := { s with ifForce := false }, rest := evs,
          out := [.hdr FORCEREADY, .flt (e / EH), .int s.natom]
            ++ (ravel f).map (fun q => .flt (q / (EH / BOHR)))
            ++ (ravel (mulRows f c)).map (fun q => .flt (q / EH))
            ++ [.int (extraSent s).length, .raw (extraSent s)] }

/-- `BaseDriver.exit`: `self.socket.close()` then `raise ExitSignal()`. -/
def exitStep (s : DriverState) (evs : List InEvent) : Outcome :=
  { exn := some .exitSignal, state := { s with socketClosed := true },
    rest := evs, out := [] }

/-- Python's `.strip()` on the received header: drop leading and trailing
whitespace. -/
def strip (s : String) : String :=
  ⟨((s.data.dropWhile Char.isWhitespace).reverse.dropWhile Char.isWhitespace).reverse⟩

/-- `BaseDriver.parse`: receive the 12-byte header under a 10-second
timeout (a `socket.timeout` there raises `TimeOutSignal`, as does an
empty stream: a closed peer delivers an empty header), strip it, raise
`TimeOutSignal` when fewer than 2 characters remain, then dispatch; an
unrecognized command falls off the `elif` chain and does nothing. -/
def parse (g : Grad) (s : DriverState) (evs : List InEvent) : Outcome :=
  match evs with
  | [] => { exn := some .timeOutSignal, state := s, rest := [], out := [] }
  | .tmo :: rest => { exn := some .timeOutSignal, state := s, rest := rest, out := [] }
  | .ev (.hdr h) :: rest =>
    if ((strip h).length < 2) then
      { exn := some .timeOutSignal, state := s, rest := rest, out := [] }
    else if strip h = "STATUS" then statusStep s rest
    else if strip h = "INIT" then initStep s rest
    else if strip h = "POSDATA" then posdataStep g s rest
    else if strip h = "GETFORCE" then getforceStep s rest
    else if strip h = "EXIT" then exitStep s rest
    else { exn := none, state := s, rest := rest, out := [] }
  | .ev _ :: rest => { exn := some .streamError, state := s, rest := rest, out := [] }

/-- Run `parse` up to `n` times, as the `while True: driver.parse()` loop,
stopping at the first exception and concatenating the written output. -/
def parseSteps (g : Grad) : ℕ → DriverState → List InEvent → Outcome
  | 0, s, evs => { exn := none, state := s, rest := evs, out := [] }
  | n + 1, s, evs =>
    match parse g s evs with
    | ⟨none, s2, r2, o2⟩ =>
      { exn := (parseSteps g n s2 r2).exn, state := (parseSteps g n s2 r2).state,
        rest := (parseSteps g n s2 r2).rest,
        out := o2 ++ (parseSteps g n s2 r2).out }
    | o => o

/-! ### The model of BaseDriver.__init__'s connect phase -/

/-- `BaseDriver.__init__` sets a 10-second timeout, connects, and raises
`TimeOutSignal` if the connect attempt times out; on success the timeout
is cleared and the state fields are initialized. -/
def connectDriver (timedOut : Bool) : Except DriverError DriverState :=
  if timedOut then .error .timeOutSignal else .ok initState

/-! ### HarmonicDriver -/

/-- `HarmonicDriver.__init__`: `self.kconst = k * (KJ / MOLE)`. -/
def kconst (k : ℚ) : ℚ := k * (KJ / MOLE)

/-- Per-atom squared norm, row of `(crd ** 2).sum(axis=1)`. -/
def sqnorm (v : V3) : ℚ := v.x ^ 2 + v.y ^ 2 + v.z ^ 2

/-- `HarmonicDriver.grad`: `r = (crd ** 2).sum(axis=1)`;
`energy = (kconst * r ** 2).sum()`;
`grad = 2 * kconst * crd / r.reshape((-1, 1))`. -/
def harmonicGrad (kc : ℚ) (crd : List V3) : ℚ × List V3 :=
  let r := crd.map sqnorm
  ((r.map (fun ri => kc * ri ^ 2)).sum,
   (crd.zip r).map (fun p =>
     (⟨2 * kc * p.1.x / p.2, 2 * kc * p.1.y / p.2, 2 * kc * p.1.z / p.2⟩ : V3)))

/-- `HarmonicDriver.grad` as an evaluator: it always returns a usable pair. -/
def harmonicGradFn (kc : ℚ) : Grad := fun crd => some (harmonicGrad kc crd)

/-! ### Message encodings (what the orchestrator puts on the wire) -/

/-- A list of 8-byte floats as inbound events. -/
def fltsEv (qs : List ℚ) : List InEvent := qs.map (fun q => .ev (.flt q))

/-- The STATUS message: just the padded header. -/
def statusMsg : List InEvent := [.ev (.hdr "STATUS      ")]

/-- The INIT message: header, bead index, declared length, payload. -/
def initMsg (nb : ℤ) (payload : String) : List InEvent :=
  [.ev (.hdr "INIT        "), .ev (.int nb),
   .ev (.int payload.length), .ev (.raw payload)]

/-- The POSDATA message: header, 9 cell floats, 9 inverse-cell floats,
the atom count, `3 * n` coordinate floats. -/
def posdataMsg (cellW invW : List ℚ) (n : ℤ) (crdW : List ℚ) : List InEvent :=
  .ev (.hdr "POSDATA     ") ::
    (fltsEv cellW ++ fltsEv invW ++ .ev (.int n) :: fltsEv crdW)

/-- The GETFORCE message: just the padded header. -/
def getforceMsg : List InEvent := [.ev (.hdr "GETFORCE    ")]

/-- The EXIT message: just the padded header. -/
def exitMsg : List InEvent := [.ev (.hdr "EXIT        ")]

end IPI

namespace IPI

/-! ### Dispatch lemmas: parse on each concrete padded header -/

theorem parse_status_hdr (g : Grad) (s : DriverState) (rest : List InEvent) :
    parse g s (statusMsg ++ rest) = statusStep s rest := rfl

theorem parse_init_hdr (g : Grad) (s : DriverState) (nb : ℤ) (payload : String)
    (rest : List InEvent) :
    parse g s (initMsg nb payload ++ rest)
      = initStep s (.ev (.int nb) :: .ev (.int payload.length)
          :: .ev (.raw payload) :: rest) := rfl

theorem parse_posdata_hdr (g : Grad) (s : DriverState) (cellW invW : List ℚ)
    (n : ℤ) (crdW : List ℚ) (rest : List InEvent) :
    parse g s (posdataMsg cellW invW n crdW ++ rest)
      = posdataStep g s
          ((fltsEv cellW ++ fltsEv invW ++ .ev (.int n) :: fltsEv crdW) ++ rest) := rfl

theorem parse_getforce_hdr (g : Grad) (s : DriverState) (rest : List InEvent) :
    parse g s (getforceMsg ++ rest) = getforceStep s rest := rfl

theorem parse_exit_hdr (g : Grad) (s : DriverState) (rest : List InEvent) :
    parse g s (exitMsg ++ rest) = exitStep s rest := rfl

/-! ### C2 -/

/-- C2: handling STATUS sends exactly one reply and changes no session
state; the reply is HAVEDATA whenever a result is pending (even when the
client is not initialized), READY when initialized with nothing pending,
and NEEDINIT only when neither initialized nor holding a pending result. -/
theorem C2_status_reply (g : Grad) (s : DriverState) (rest : List InEvent) :
    parse g s (statusMsg ++ rest)
      = { exn := none, state := s, rest := rest,
          out := [.hdr (if s.ifForce then HAVEDATA
                        else if s.ifInit then READY else NEEDINIT)] } := by
  rw [parse_status_hdr]
  unfold statusStep statusReply
  cases hf : s.ifForce <;> cases hi : s.ifInit <;> simp

/-- C2 counterexample: in the session state with `initialized = false` and a
pending result, STATUS replies HAVEDATA, not NEEDINIT as the claim states. -/
theorem C2_needinit_counterexample :
    (parse baseGrad { initState with ifForce := true } statusMsg).out
        = [.hdr HAVEDATA]
      ∧ HAVEDATA ≠ NEEDINIT := by decide

/-! ### C8 -/

/-- C8: in every session state, handling EXIT closes the socket, raises
exactly the distinguished `ExitSignal` (never a timeout or another error),
and sends no reply. -/
theorem C8_exit (g : Grad) (s : DriverState) (rest : List InEvent) :
    parse g s (exitMsg ++ rest)
      = { exn := some .exitSignal, state := { s with socketClosed := true },
          rest := rest, out := [] } := rfl

/-! ### C9 -/

/-- C9: a GETFORCE handled while the stored energy is still the initial
`None` writes the 12-byte FORCEREADY header and then raises a Python
runtime error converting the absent energy, so only a partial reply of
12 bytes is on the wire, the state is unchanged and `ifForce` is not
cleared. -/
theorem C9_getforce_partial (g : Grad) (s : DriverState) (rest : List InEvent)
    (h : s.energy = none) :
    parse g s (getforceMsg ++ rest)
        = { exn := some .pyError, state := s, rest := rest,
            out := [.hdr FORCEREADY] }
      ∧ ((parse g s (getforceMsg ++ rest)).out.map WireItem.byteSize).sum = 12 := by
  rw [parse_getforce_hdr]
  unfold getforceStep
  rw [h]
  exact ⟨rfl, rfl⟩

/-- C9 witness: immediately after construction (state `initState`) the
energy is `None` and GETFORCE emits exactly the 12 header bytes and a
runtime error. -/
theorem C9_getforce_partial_witness :
    parse baseGrad initState (getforceMsg ++ [])
        = { exn := some .pyError, state := initState, rest := [],
            out := [.hdr FORCEREADY] }
      ∧ ((parse baseGrad initState (getforceMsg ++ [])).out.map
          WireItem.byteSize).sum = 12 :=
  C9_getforce_partial baseGrad initState [] rfl

end IPI

namespace IPI

/-- The dispatch chain of `parse` on a header event, as one equation. -/
theorem parse_hdr (g : Grad) (s : DriverState) (h : String) (rest : List InEvent) :
    parse g s (.ev (.hdr h) :: rest)
      = if ((strip h).length < 2) then
          { exn := some .timeOutSignal, state := s, rest := rest, out := [] }
        else if strip h = "STATUS" then statusStep s rest
        else if strip h = "INIT" then initStep s rest
        else if strip h = "POSDATA" then posdataStep g s rest
        else if strip h = "GETFORCE" then getforceStep s rest
        else if strip h = "EXIT" then exitStep s rest
        else { exn := none, state := s, rest := rest, out := [] } := rfl

/-! ### C7 -/

/-- C7 (amended): a received header whose stripped form has at least two
characters and is none of the five commands is silently ignored: no reply,
no exception, no state change, and the loop moves on to the next header. -/
theorem C7_unknown_ignored (g : Grad) (s : DriverState) (h : String)
    (rest : List InEvent)
    (hlen : 2 ≤ (strip h).length)
    (hcmd : strip h ∉ (["STATUS", "INIT", "POSDATA", "GETFORCE", "EXIT"] : List String)) :
    parse g s (.ev (.hdr h) :: rest)
      = { exn := none, state := s, rest := rest, out := [] } := by
  simp only [List.mem_cons, List.not_mem_nil, or_false, not_or] at hcmd
  obtain ⟨h1, h2, h3, h4, h5⟩ := hcmd
  rw [parse_hdr, if_neg (by omega), if_neg h1, if_neg h2, if_neg h3,
    if_neg h4, if_neg h5]

/-- C7 witness: the unknown 12-byte header `HELLO` plus padding is ignored. -/
theorem C7_unknown_ignored_witness :
    parse baseGrad initState [.ev (.hdr "HELLO       ")]
      = { exn := none, state := initState, rest := [], out := [] } :=
  C7_unknown_ignored baseGrad initState "HELLO       " [] (by decide) (by decide)

/-- C7 counterexample: the header `A` plus padding strips to a single
character, which is not one of the five commands, yet the dispatch step
raises `TimeOutSignal` instead of ignoring it. -/
theorem C7_short_header_counterexample :
    strip "A           " ∉ (["STATUS", "INIT", "POSDATA", "GETFORCE", "EXIT"] : List String)
      ∧ (parse baseGrad initState [.ev (.hdr "A           ")]).exn
          = some DriverError.timeOutSignal := by decide

/-! ### C6: where TimeOutSignal can be raised -/

theorem statusStep_exn (s : DriverState) (evs : List InEvent) :
    (statusStep s evs).exn = none := rfl

theorem exitStep_exn (s : DriverState) (evs : List InEvent) :
    (exitStep s evs).exn = some .exitSignal := rfl

theorem initStep_exn_ne_tmo (s : DriverState) (evs : List InEvent) :
    (initStep s evs).exn ≠ some .timeOutSignal := by
  unfold initStep
  split
  · simp
  · split
    · simp
    · split <;> simp

theorem posdataStep_exn_ne_tmo (g : Grad) (s : DriverState) (evs : List InEvent) :
    (posdataStep g s evs).exn ≠ some .timeOutSignal := by
  unfold posdataStep
  split
  · simp
  · split
    · simp
    · split
      · simp
      · split
        · simp
        · dsimp only
          split <;> simp

theorem getforceStep_exn_ne_tmo (s : DriverState) (evs : List InEvent) :
    (getforceStep s evs).exn ≠ some .timeOutSignal := by
  unfold getforceStep
  split
  · simp
  · split
    · simp
    · split <;> simp

/-- C6 (amended): the connect phase raises the timeout condition when the
peer does not accept in the window; after a successful connect the only
reads that can raise `TimeOutSignal` are the 12-byte header reads of the
dispatch loop, which run under a 10-second timeout (an expiry, a closed or
silent peer, or a header stripping to fewer than two characters raises it);
payload reads inside a handler never raise the timeout condition. -/
theorem C6_timeout_at_header_reads :
    connectDriver true = Except.error DriverError.timeOutSignal
      ∧ connectDriver false = Except.ok initState
      ∧ ∀ (g : Grad) (s : DriverState) (evs : List InEvent),
          ((parse g s evs).exn = some DriverError.timeOutSignal ↔
            evs = [] ∨ (∃ rest, evs = InEvent.tmo :: rest) ∨
              ∃ h rest, evs = InEvent.ev (WireItem.hdr h) :: rest
                ∧ (strip h).length < 2) := by
  refine ⟨rfl, rfl, fun g s evs => ?_⟩
  cases evs with
  | nil => simp [parse]
  | cons e rest =>
    cases e with
    | tmo => simp [parse]
    | ev w =>
      cases w with
      | hdr h =>
        by_cases hl : (strip h).length < 2
        · simp [parse, hl]
        · rw [parse_hdr, if_neg hl]
          simp only [List.cons.injEq, InEvent.ev.injEq, WireItem.hdr.injEq,
            reduceCtorEq, false_and, exists_false, or_false, false_or]
          constructor
          · intro hx
            exfalso
            revert hx
            split
            · rw [statusStep_exn]; simp
            · split
              · exact initStep_exn_ne_tmo s rest
              · split
                · exact posdataStep_exn_ne_tmo g s rest
                · split
                  · exact getforceStep_exn_ne_tmo s rest
                  · split
                    · rw [exitStep_exn]; simp
                    · simp
          · rintro ⟨h2, rest2, ⟨hh, hr⟩, hlen⟩
            exact absurd (hh ▸ hlen) hl
      | int n => simp [parse]
      | flt q => simp [parse]
      | raw b => simp [parse]

/-- C6 witness: a timeout event at a header read raises `TimeOutSignal`. -/
theorem C6_timeout_at_header_reads_witness :
    (parse baseGrad initState [InEvent.tmo]).exn = some DriverError.timeOutSignal :=
  (C6_timeout_at_header_reads.2.2 baseGrad initState [InEvent.tmo]).mpr
    (Or.inr (Or.inl ⟨[], rfl⟩))

/-- C6 counterexample: after a successful connect (state `initState`), a
header read can still raise the timeout condition, contradicting the claim
that reads after connect never raise a timeout. -/
theorem C6_after_connect_counterexample :
    connectDriver false = Except.ok initState
      ∧ (parse baseGrad initState [InEvent.tmo]).exn
          = some DriverError.timeOutSignal := ⟨rfl, rfl⟩

end IPI

namespace IPI

/-! ### Byte-count lemmas -/

theorem ravel_length (l : List V3) : (ravel l).length = 3 * l.length := by
  induction l with
  | nil => rfl
  | cons v t ih => simp [ravel, ih]; omega

theorem mulRows_length (l r : List V3) :
    (mulRows l r).length = min l.length r.length := by
  simp [mulRows]

theorem sum_byteSize_flts (f : ℚ → ℚ) (l : List ℚ) :
    ((l.map (fun q => WireItem.flt (f q))).map WireItem.byteSize).sum
      = 8 * l.length := by
  induction l with
  | nil => rfl
  | cons q t ih =>
    simp only [List.map_cons, List.sum_cons, List.length_cons,
      WireItem.byteSize, ih]
    ring

/-- Running `getforceStep` on a state holding a complete pending result. -/
theorem getforceStep_run (s : DriverState) (evs : List InEvent) (e : ℚ)
    (f c : List V3)
    (he : s.energy = some e) (hf : s.force = some f) (hc : s.crd = some c) :
    getforceStep s evs
      = { exn := none, state := { s with ifForce := false }, rest := evs,
          out := [.hdr FORCEREADY, .flt (e / EH), .int s.natom]
            ++ (ravel f).map (fun q => .flt (q / (EH / BOHR)))
            ++ (ravel (mulRows f c)).map (fun q => .flt (q / EH))
            ++ [.int (extraSent s).length, .raw (extraSent s)] } := by
  unfold getforceStep
  rw [he, hf, hc]

/-! ### C1 -/

/-- C1 (amended): for a pending result with `N` atoms the GETFORCE handler
writes, in this order: the 12-byte FORCEREADY header, the 8-byte energy
divided by `EH`, the 4-byte atom count, `3N` 8-byte force values each
divided by `EH / BOHR`, `3N` 8-byte virial values (the flattened `N × 3`
elementwise product of force and displacement) each divided by `EH`, a
4-byte extra-string length, and the extra bytes (a single space of length 1
when the evaluator supplied no extra data); the reply therefore totals
`12 + 8 + 4 + 3N*8 + 3N*8 + 4 + len(extra)` bytes, and `ifForce` is
cleared. -/
theorem C1_getforce_reply (g : Grad) (s : DriverState) (rest : List InEvent)
    (e : ℚ) (f c : List V3) (N : ℕ)
    (he : s.energy = some e) (hf : s.force = some f) (hc : s.crd = some c)
    (hfl : f.length = N) (hcl : c.length = N) :
    parse g s (getforceMsg ++ rest)
        = { exn := none, state := { s with ifForce := false }, rest := rest,
            out := [.hdr FORCEREADY, .flt (e / EH), .int s.natom]
              ++ (ravel f).map (fun q => .flt (q / (EH / BOHR)))
              ++ (ravel (mulRows f c)).map (fun q => .flt (q / EH))
              ++ [.int (extraSent s).length, .raw (extraSent s)] }
      ∧ ((parse g s (getforceMsg ++ rest)).out.map WireItem.byteSize).sum
          = 12 + 8 + 4 + 3 * N * 8 + 3 * N * 8 + 4 + (extraSent s).length
      ∧ (s.extra.length = 0 → extraSent s = " ") := by
  have hmain : parse g s (getforceMsg ++ rest)
      = { exn := none, state := { s with ifForce := false }, rest := rest,
          out := [.hdr FORCEREADY, .flt (e / EH), .int s.natom]
            ++ (ravel f).map (fun q => .flt (q / (EH / BOHR)))
            ++ (ravel (mulRows f c)).map (fun q => .flt (q / EH))
            ++ [.int (extraSent s).length, .raw (extraSent s)] } :=
    (parse_getforce_hdr g s rest).trans (getforceStep_run s rest e f c he hf hc)
  refine ⟨hmain, ?_, ?_⟩
  · rw [hmain]
    simp only [List.map_append, List.sum_append, sum_byteSize_flts,
      List.map_cons, List.map_nil, List.sum_cons, List.sum_nil,
      WireItem.byteSize, ravel_length, mulRows_length, hfl, hcl, min_self]
    rw [show FORCEREADY.length = 12 from rfl]
    omega
  · intro hx
    unfold extraSent
    rw [hx]
    rfl

/-- C1 state fixture: a pending 2-atom result. -/
def wState : DriverState :=
  { initState with
    natom := 2, energy := some 1, ifForce := true,
    force := some [⟨1, 0, 0⟩, ⟨0, 1, 0⟩], crd := some [⟨1, 0, 0⟩, ⟨0, 0, 1⟩] }

/-- C1 witness: the force reply for the concrete pending 2-atom result. -/
theorem C1_getforce_reply_witness :
    parse baseGrad wState (getforceMsg ++ [])
        = { exn := none, state := { wState with ifForce := false }, rest := [],
            out := [.hdr FORCEREADY, .flt (1 / EH), .int wState.natom]
              ++ (ravel [(⟨1, 0, 0⟩ : V3), ⟨0, 1, 0⟩]).map
                  (fun q => .flt (q / (EH / BOHR)))
              ++ (ravel (mulRows [(⟨1, 0, 0⟩ : V3), ⟨0, 1, 0⟩]
                    [(⟨1, 0, 0⟩ : V3), ⟨0, 0, 1⟩])).map (fun q => .flt (q / EH))
              ++ [.int (extraSent wState).length, .raw (extraSent wState)] }
      ∧ ((parse baseGrad wState (getforceMsg ++ [])).out.map WireItem.byteSize).sum
          = 12 + 8 + 4 + 3 * 2 * 8 + 3 * 2 * 8 + 4 + (extraSent wState).length
      ∧ (wState.extra.length = 0 → extraSent wState = " ") :=
  C1_getforce_reply baseGrad wState [] 1 [⟨1, 0, 0⟩, ⟨0, 1, 0⟩]
    [⟨1, 0, 0⟩, ⟨0, 0, 1⟩] 2 rfl rfl rfl rfl rfl

/-- C1 state fixture for the counterexample: a pending 1-atom result. -/
def cexState : DriverState :=
  { initState with
    natom := 1, energy := some 0, ifForce := true,
    force := some [⟨1, 0, 0⟩], crd := some [⟨1, 0, 0⟩] }

/-- C1 counterexample: for a pending result with one atom and the default
single-space extra string, the GETFORCE reply is
`12 + 8 + 4 + 24 + 24 + 4 + 1 = 77` bytes, not the
`12 + 8 + 4 + 3N*8 + 9*8 + 4 + len(extra) = 125` bytes the claim states:
the virial loop emits `3N` values, not 9. -/
theorem C1_virial_length_counterexample :
    ((parse baseGrad cexState getforceMsg).out.map WireItem.byteSize).sum = 77
      ∧ ((parse baseGrad cexState getforceMsg).out.map WireItem.byteSize).sum
          ≠ 12 + 8 + 4 + 3 * 1 * 8 + 9 * 8 + 4 + 1 := by decide

end IPI

namespace IPI

/-! ### Stream lemmas -/

theorem readFlts_fltsEv (qs : List ℚ) (tail : List InEvent) :
    readFlts qs.length (fltsEv qs ++ tail) = some (qs, tail) := by
  induction qs with
  | nil => rfl
  | cons q t ih =>
    have hstep : readFlts (q :: t).length (fltsEv (q :: t) ++ tail)
        = match readFlts t.length (fltsEv t ++ tail) with
          | some (qs, r) => some (q :: qs, r)
          | none => none := rfl
    rw [hstep, ih]

theorem readFlts_of_len (k : ℕ) (qs : List ℚ) (tail : List InEvent)
    (h : qs.length = k) :
    readFlts k (fltsEv qs ++ tail) = some (qs, tail) :=
  h ▸ readFlts_fltsEv qs tail

/-- Running `parse` over a full well-formed POSDATA message, for any
evaluator: the shared engine behind the POSDATA claims. -/
theorem parse_posdata_run (g : Grad) (s : DriverState) (cellW invW crdW : List ℚ)
    (n : ℕ) (e : ℚ) (f : List V3) (rest : List InEvent)
    (h1 : cellW.length = 9) (h2 : invW.length = 9) (h3 : crdW.length = 3 * n)
    (hg : g (scaleRows BOHR (toTriples crdW)) = some (e, f)) :
    parse g s (posdataMsg cellW invW n crdW ++ rest)
      = { exn := none,
          state := { s with
            cell := some (cellW.map (· * BOHR)),
            inverse := some (invW.map (· / BOHR)),
            natom := (n : ℤ),
            crd := some (scaleRows BOHR (toTriples crdW)),
            energy := some e,
            force := some (negRows f),
            ifForce := true },
          rest := rest, out := [] } := by
  rw [parse_posdata_hdr]
  unfold posdataStep
  rw [List.append_assoc, List.append_assoc,
    readFlts_of_len 9 cellW _ h1]
  simp only [List.cons_append]
  rw [readFlts_of_len 9 invW _ h2]
  simp only [readInt, Int.toNat_natCast]
  rw [readFlts_of_len (3 * n) crdW _ h3]
  simp only []
  rw [hg]

/-! ### C3 -/

/-- C3: a POSDATA message with cell floats `cellW`, inverse-cell floats
`invW`, atom count `n` and coordinate floats `crdW` makes the handler store
the cell multiplied by BOHR, the inverse cell divided by BOHR, the atom
count, and the coordinates reshaped to rows of three and multiplied by
BOHR; it invokes the evaluator on the converted coordinates, stores its
energy and the negated force as the pending result, sets `ifForce`, sends
no reply and raises nothing. -/
theorem C3_posdata (g : Grad) (s : DriverState) (cellW invW crdW : List ℚ)
    (n : ℕ) (e : ℚ) (f : List V3) (rest : List InEvent)
    (h1 : cellW.length = 9) (h2 : invW.length = 9) (h3 : crdW.length = 3 * n)
    (hg : g (scaleRows BOHR (toTriples crdW)) = some (e, f)) :
    parse g s (posdataMsg cellW invW n crdW ++ rest)
      = { exn := none,
          state := { s with
            cell := some (cellW.map (· * BOHR)),
            inverse := some (invW.map (· / BOHR)),
            natom := (n : ℤ),
            crd := some (scaleRows BOHR (toTriples crdW)),
            energy := some e,
            force := some (negRows f),
            ifForce := true },
          rest := rest, out := [] } :=
  parse_posdata_run g s cellW invW crdW n e f rest h1 h2 h3 hg

end IPI

namespace IPI

/-! ### C3 witness fixtures -/

/-- Cell floats for the concrete POSDATA witness. -/
def wCell : List ℚ := List.replicate 9 1

/-- Inverse-cell floats for the concrete POSDATA witness. -/
def wInv : List ℚ := List.replicate 9 2

/-- Coordinate floats (one atom) for the concrete POSDATA witness. -/
def wCrdW : List ℚ := [1, 2, 3]

/-- The harmonic evaluator with `k = 100.0` used by the witnesses. -/
def wGradFn : Grad := harmonicGradFn (kconst 100)

/-- The converted coordinates the evaluator receives in the witness. -/
def wCrd1 : List V3 := scaleRows BOHR (toTriples wCrdW)

/-- The energy/gradient pair the harmonic evaluator returns in the witness. -/
def wEF : ℚ × List V3 := harmonicGrad (kconst 100) wCrd1

/-- C3 witness: one concrete POSDATA message handled with the harmonic
evaluator. -/
theorem C3_posdata_witness :
    parse wGradFn initState (posdataMsg wCell wInv 1 wCrdW ++ [])
      = { exn := none,
          state := { initState with
            cell := some (wCell.map (· * BOHR)),
            inverse := some (wInv.map (· / BOHR)),
            natom := (1 : ℤ),
            crd := some (scaleRows BOHR (toTriples wCrdW)),
            energy := some wEF.1,
            force := some (negRows wEF.2),
            ifForce := true },
          rest := [], out := [] } :=
  C3_posdata wGradFn initState wCell wInv wCrdW 1 wEF.1 wEF.2 []
    rfl rfl rfl rfl

/-! ### C4 -/

/-- The harmonic formula exactly as the spec states it: energy
`kp * Σ |crd_i|⁴` and per-atom force `2 kp * crd_i / |crd_i|²`, with
`kp = k * 1000 / 6.02214129e23`. -/
def harmonicSpecFormula (kp : ℚ) (crd : List V3) : ℚ × List V3 :=
  (kp * (crd.map (fun c => sqnorm c ^ 2)).sum,
   crd.map (fun c =>
     (⟨2 * kp * c.x / sqnorm c, 2 * kp * c.y / sqnorm c,
       2 * kp * c.z / sqnorm c⟩ : V3)))

theorem zip_map_sqnorm (h : V3 × ℚ → V3) (crd : List V3) :
    (crd.zip (crd.map sqnorm)).map h = crd.map (fun c => h (c, sqnorm c)) := by
  induction crd with
  | nil => rfl
  | cons v t ih => simp only [List.map_cons, List.zip_cons_cons, ih]

/-- C4: for every constant `k` and coordinate list, `HarmonicDriver.grad`
returns exactly the spec formula with `kp = k * 1000 / MOLE`; and at the
concrete 2-atom input `[[0,0,0],[1,0,0]]` with `k = 100` the energy and
force evaluate to the formula's exact rational output (division by a zero
squared norm following the convention `q / 0 = 0` of `ℚ`). -/
theorem C4_harmonic_formula (k : ℚ) (crd : List V3) :
    harmonicGrad (kconst k) crd = harmonicSpecFormula (k * 1000 / MOLE) crd
      ∧ harmonicGrad (kconst 100) [(⟨0, 0, 0⟩ : V3), ⟨1, 0, 0⟩]
          = (1 / 6022141290000000000,
             [(⟨0, 0, 0⟩ : V3), ⟨1 / 3011070645000000000, 0, 0⟩]) := by
  constructor
  · have hk : kconst k = k * 1000 / MOLE := by
      unfold kconst KJ
      norm_num
      ring
    unfold harmonicGrad harmonicSpecFormula
    dsimp only
    rw [hk, zip_map_sqnorm]
    refine Prod.ext ?_ rfl
    simp only [List.map_map, Function.comp_def]
    exact List.sum_map_mul_left crd (fun c => sqnorm c ^ 2) (k * 1000 / MOLE)
  · norm_num [harmonicGrad, kconst, sqnorm, MOLE, KJ, List.zip]

/-! ### C10 -/

/-- The force rows of `HarmonicDriver.grad` with every division tracked
for definedness: `none` as soon as some atom has a zero squared norm, the
case where the IEEE division `2 * kconst * crd / r` produces a non-finite
value for that row. -/
def harmonicForceChecked (kc : ℚ) (crd : List V3) : Option (List V3) :=
  if ∀ v ∈ crd, sqnorm v ≠ 0 then some (harmonicGrad kc crd).2 else none

theorem sqnorm_eq_zero_iff (v : V3) : sqnorm v = 0 ↔ v = ⟨0, 0, 0⟩ := by
  unfold sqnorm
  constructor
  · intro h
    have hx : v.x = 0 := by
      have := sq_nonneg v.x
      have := sq_nonneg v.y
      have := sq_nonneg v.z
      nlinarith
    have hy : v.y = 0 := by
      have := sq_nonneg v.x
      have := sq_nonneg v.y
      have := sq_nonneg v.z
      nlinarith
    have hz : v.z = 0 := by
      have := sq_nonneg v.x
      have := sq_nonneg v.y
      have := sq_nonneg v.z
      nlinarith
    cases v
    simp_all
  · rintro rfl
    norm_num

/-- C10: the harmonic gradient divides each atom's coordinates by that
atom's squared norm; the squared norm vanishes exactly for the atom at the
origin, so the division-tracked force is defined precisely when no atom
sits at the origin, where it agrees with the code's force rows; with an
atom at the origin the division-by-zero case is reached and no finite
force exists for that row. -/
theorem C10_origin_division (kc : ℚ) (crd : List V3) :
    (harmonicGrad kc crd).2
        = crd.map (fun v =>
            (⟨2 * kc * v.x / sqnorm v, 2 * kc * v.y / sqnorm v,
              2 * kc * v.z / sqnorm v⟩ : V3))
      ∧ (∀ v : V3, sqnorm v = 0 ↔ v = ⟨0, 0, 0⟩)
      ∧ (((⟨0, 0, 0⟩ : V3) ∈ crd) → harmonicForceChecked kc crd = none)
      ∧ ((∀ v ∈ crd, v ≠ ⟨0, 0, 0⟩) →
          harmonicForceChecked kc crd = some ((harmonicGrad kc crd).2)) := by
  refine ⟨?_, sqnorm_eq_zero_iff, ?_, ?_⟩
  · unfold harmonicGrad
    dsimp only
    rw [zip_map_sqnorm]
  · intro hmem
    unfold harmonicForceChecked
    rw [if_neg]
    push_neg
    exact ⟨⟨0, 0, 0⟩, hmem, by norm_num [sqnorm]⟩
  · intro hall
    unfold harmonicForceChecked
    rw [if_pos]
    intro v hv
    rw [ne_eq, sqnorm_eq_zero_iff]
    exact hall v hv

/-- C10 witness: for the single atom at the origin the tracked force
computation is undefined. -/
theorem C10_origin_division_witness :
    harmonicForceChecked (kconst 100) [(⟨0, 0, 0⟩ : V3)] = none :=
  (C10_origin_division (kconst 100) [⟨0, 0, 0⟩]).2.2.1 (by simp)

end IPI

namespace IPI

/-! ### C5: one full legal cycle -/

/-- One successful `parse` step inside the driving loop. -/
theorem parseSteps_step (g : Grad) (n : ℕ) (s s2 : DriverState)
    (evs r2 : List InEvent) (o2 : List WireItem)
    (h : parse g s evs = { exn := none, state := s2, rest := r2, out := o2 }) :
    parseSteps g (n + 1) s evs
      = { exn := (parseSteps g n s2 r2).exn,
          state := (parseSteps g n s2 r2).state,
          rest := (parseSteps g n s2 r2).rest,
          out := o2 ++ (parseSteps g n s2 r2).out } := by
  conv_lhs => rw [parseSteps, h]

/-- Running `parse` over a full INIT message. -/
theorem parse_init_run (g : Grad) (s : DriverState) (nb : ℤ) (payload : String)
    (rest : List InEvent) :
    parse g s (initMsg nb payload ++ rest)
      = { exn := none, state := { s with nbead := nb, ifInit := true },
          rest := rest, out := [] } := by
  rw [parse_init_hdr]
  simp [initStep, readInt, readRaw]

/-- Running `parse` over a STATUS message. -/
theorem parse_status_run (g : Grad) (s : DriverState) (rest : List InEvent) :
    parse g s (statusMsg ++ rest)
      = { exn := none, state := s, rest := rest,
          out := [.hdr (statusReply s)] } := rfl

/-- Running `parse` over a final STATUS message with nothing after it. -/
theorem parse_status_last (g : Grad) (s : DriverState) :
    parse g s statusMsg
      = { exn := none, state := s, rest := [],
          out := [.hdr (statusReply s)] } := rfl

/-- C5: starting from the freshly constructed state, the message sequence
INIT, STATUS, POSDATA, STATUS, GETFORCE, STATUS is consumed completely
(nothing is left on the stream), the three STATUS replies are READY,
HAVEDATA and READY in that order (with the force reply between the last
two), no exception is raised, and the final state is initialized with no
pending result. -/
theorem C5_sequence (g : Grad) (nb : ℤ) (payload : String)
    (cellW invW crdW : List ℚ) (n : ℕ) (e : ℚ) (f : List V3)
    (h1 : cellW.length = 9) (h2 : invW.length = 9) (h3 : crdW.length = 3 * n)
    (hg : g (scaleRows BOHR (toTriples crdW)) = some (e, f)) :
    parseSteps g 6 initState
        (initMsg nb payload ++ (statusMsg ++ (posdataMsg cellW invW n crdW
          ++ (statusMsg ++ (getforceMsg ++ statusMsg)))))
      = { exn := none,
          state := { initState with
            nbead := nb, ifInit := true,
            cell := some (cellW.map (· * BOHR)),
            inverse := some (invW.map (· / BOHR)),
            natom := (n : ℤ),
            crd := some (scaleRows BOHR (toTriples crdW)),
            energy := some e, force := some (negRows f),
            ifForce := false },
          rest := [],
          out := [.hdr READY, .hdr HAVEDATA, .hdr FORCEREADY, .flt (e / EH),
              .int (n : ℤ)]
            ++ ((ravel (negRows f)).map (fun q => .flt (q / (EH / BOHR)))
              ++ ((ravel (mulRows (negRows f)
                    (scaleRows BOHR (toTriples crdW)))).map
                      (fun q => .flt (q / EH))
                ++ [.int 1, .raw " ", .hdr READY])) } := by
  rw [parseSteps_step g 5 initState _ _ _ _ (parse_init_run g initState nb payload _)]
  rw [parseSteps_step g 4 _ _ _ _ _ (parse_status_run g _ _)]
  rw [parseSteps_step g 3 _ _ _ _ _ (parse_posdata_run g _ cellW invW crdW n e f _ h1 h2 h3 hg)]
  rw [parseSteps_step g 2 _ _ _ _ _ (parse_status_run g _ _)]
  rw [parseSteps_step g 1 _ _ _ _ _ ((parse_getforce_hdr g _ _).trans
    (getforceStep_run _ _ e (negRows f) (scaleRows BOHR (toTriples crdW))
      rfl rfl rfl))]
  rw [parseSteps_step g 0 _ _ _ _ _ (parse_status_last g _)]
  simp only [parseSteps, statusReply, extraSent, initState]
  norm_num
  rfl

end IPI

namespace IPI

/-- C5 witness: the full cycle run concretely with the harmonic evaluator
(`k = 100`), one atom, and concrete cell, inverse-cell and coordinate
floats. -/
theorem C5_sequence_witness :
    parseSteps wGradFn 6 initState
        (initMsg 1 "ab" ++ (statusMsg ++ (posdataMsg wCell wInv 1 wCrdW
          ++ (statusMsg ++ (getforceMsg ++ statusMsg)))))
      = { exn := none,
          state := { initState with
            nbead := 1, ifInit := true,
            cell := some (wCell.map (· * BOHR)),
            inverse := some (wInv.map (· / BOHR)),
            natom := (1 : ℤ),
            crd := some (scaleRows BOHR (toTriples wCrdW)),
            energy := some wEF.1, force := some (negRows wEF.2),
            ifForce := false },
          rest := [],
          out := [.hdr READY, .hdr HAVEDATA, .hdr FORCEREADY,
              .flt (wEF.1 / EH), .int (1 : ℤ)]
            ++ ((ravel (negRows wEF.2)).map (fun q => .flt (q / (EH / BOHR)))
              ++ ((ravel (mulRows (negRows wEF.2)
                    (scaleRows BOHR (toTriples wCrdW)))).map
                      (fun q => .flt (q / EH))
                ++ [.int 1, .raw " ", .hdr READY])) } :=
  C5_sequence wGradFn 1 "ab" wCell wInv wCrdW 1 wEF.1 wEF.2 rfl rfl rfl rfl

end IPI
